import Mathlib

/-!
Verification development for the `voltage-payments-mcp` repository: a thin
client over a remote payments HTTP API (wallets, BOLT11 invoices, payment
status, ledgers) plus an OpenAPI-to-tool-schema extraction utility.

The Python source is shallowly embedded: JSON values become an inductive
`Json`, Python dicts built by sequential conditional insertion become
association lists built in the same order, `os.environ.get` becomes
`Option String` fields, exceptions become explicit error constructors, and
the network is modelled by passing the response (or, for the poller, the
per-attempt sequence of responses) as an explicit argument.
-/

/-- A JSON value, as produced by Python's `json` module (numbers restricted
to integers, which is all this client ever sends). -/
inductive Json where
  | null : Json
  | bool (b : Bool) : Json
  | num (n : Int) : Json
  | str (s : String) : Json
  | arr (elems : List Json) : Json
  | obj (fields : List (String × Json)) : Json

/-- Look up a key in an association list built from a Python dict (first
binding wins; in this client each key is inserted at most once). -/
def lookupKey {α : Type} (k : String) : List (String × α) → Option α
  | [] => none
  | (k', v) :: rest => if k = k' then some v else lookupKey k rest

/-- Looking up in an appended association list: the left part wins when it
binds the key. -/
theorem lookupKey_append {α : Type} (k : String) (xs ys : List (String × α)) :
    lookupKey k (xs ++ ys) = (lookupKey k xs).orElse (fun _ => lookupKey k ys) := by
  induction xs with
  | nil => simp [lookupKey]
  | cons p rest ih =>
    obtain ⟨k', v⟩ := p
    by_cases h : k = k' <;> simp [lookupKey, h, ih]

/-- Tests whether the first character list is an initial segment of the
second (helper for the substring test below). -/
def charsMatchHere : List Char → List Char → Bool
  | [], _ => true
  | _ :: _, [] => false
  | p :: ps, c :: cs => (p == c) && charsMatchHere ps cs

/-- Tests whether `pat` occurs as a contiguous segment of the second list. -/
def charsOccur (pat : List Char) : List Char → Bool
  | [] => charsMatchHere pat []
  | c :: cs => charsMatchHere pat (c :: cs) || charsOccur pat cs

/-- Substring test: `strContains s pat` is true iff `pat` occurs in `s`. -/
def strContains (s pat : String) : Bool :=
  charsOccur pat.data s.data

/-- The process environment restricted to the four variables this client
reads; `none` models a variable that is unset (`os.environ.get` → `None`). -/
structure PyEnv where
  base_url : Option String
  api_key : Option String
  organization_id : Option String
  environment_id : Option String

/-- Python truthiness of an `os.environ.get` result: `None` and the empty
string are falsy, every other string is truthy. -/
def pyTruthyOptStr : Option String → Bool
  | none => false
  | some s => s != ""

/-- A constructed client: the four configuration fields as stored on the
object when `__init__` completes without raising. -/
structure Client where
  base_url : String
  api_key : String
  organization_id : String
  environment_id : String

/-- Outcome of running a Python constructor: the object, or the exception
`__init__` raised (`TypeError` from `None + "/api/v1"`, or the explicit
`ValueError`). -/
inductive InitResult where
  | ok (client : Client) : InitResult
  | typeError : InitResult
  | valueError (msg : String) : InitResult

/-- The `ValueError` message raised by both constructors
(`voltage_payments_api.py` line 23, `http_client.py` line 16). -/
def missingEnvMsg : String :=
  "Missing required environment variables: BASE_URL, API_KEY, ORGANIZATION_ID, ENVIRONMENT_ID"

/-- `VoltagePaymentsAPI.__init__` (`voltage_payments_api.py` lines 15-23):
`self.base_url = os.environ.get("BASE_URL") + "/api/v1"` raises `TypeError`
when `BASE_URL` is unset; otherwise the four fields are stored and
`if not all([...])` raises the `ValueError`.  Note the `all` check sees the
already-suffixed `base_url`, which is never the empty string. -/
def VoltagePaymentsAPI.init (env : PyEnv) : InitResult :=
  match env.base_url with
  | none => .typeError
  | some b =>
    let base_url := b ++ "/api/v1"
    if (base_url != "") && pyTruthyOptStr env.api_key
        && pyTruthyOptStr env.organization_id && pyTruthyOptStr env.environment_id then
      .ok ⟨base_url, env.api_key.getD "", env.organization_id.getD "",
           env.environment_id.getD ""⟩
    else
      .valueError missingEnvMsg

/-- `VoltageAPIClient.__init__` (`http_client.py` lines 8-16): the four raw
environment values are stored, then `if not all([...])` raises the
`ValueError` when any is `None` or empty. -/
def VoltageAPIClient.init (env : PyEnv) : InitResult :=
  if pyTruthyOptStr env.base_url && pyTruthyOptStr env.api_key
      && pyTruthyOptStr env.organization_id && pyTruthyOptStr env.environment_id then
    .ok ⟨env.base_url.getD "", env.api_key.getD "", env.organization_id.getD "",
         env.environment_id.getD ""⟩
  else
    .valueError missingEnvMsg

/-- C4 counterexample: with `BASE_URL` set to the empty string (and the other
three variables non-empty), `VoltagePaymentsAPI` construction SUCCEEDS — the
suffix `"/api/v1"` is appended before the truthiness check, so the check can
never see an empty `base_url`.  The claim says construction must fail
whenever any of the four values is missing or empty. -/
theorem C4_counterexample :
    VoltagePaymentsAPI.init ⟨some "", some "k", some "o", some "e"⟩ =
      .ok ⟨"/api/v1", "k", "o", "e"⟩ := by
  rfl

/-- C4 (amended): for `VoltageAPIClient`, a missing-or-empty value among the
four makes construction fail with the `ValueError` naming all four keys.  For
`VoltagePaymentsAPI`: a missing (unset) `BASE_URL` fails with a `TypeError`
(whose message does not name the keys); when `BASE_URL` is set (even empty),
a missing-or-empty value among the other three fails with the same
`ValueError` naming all four keys; an empty-but-set `BASE_URL` alone does not
cause failure. -/
theorem C4_amended_init_failure (env : PyEnv) :
    (¬ (pyTruthyOptStr env.base_url = true ∧ pyTruthyOptStr env.api_key = true
        ∧ pyTruthyOptStr env.organization_id = true
        ∧ pyTruthyOptStr env.environment_id = true) →
      VoltageAPIClient.init env = .valueError missingEnvMsg)
    ∧ (env.base_url = none → VoltagePaymentsAPI.init env = .typeError)
    ∧ (∀ b : String, env.base_url = some b →
        ¬ (pyTruthyOptStr env.api_key = true
            ∧ pyTruthyOptStr env.organization_id = true
            ∧ pyTruthyOptStr env.environment_id = true) →
        VoltagePaymentsAPI.init env = .valueError missingEnvMsg)
    ∧ (strContains missingEnvMsg "BASE_URL" = true
        ∧ strContains missingEnvMsg "API_KEY" = true
        ∧ strContains missingEnvMsg "ORGANIZATION_ID" = true
        ∧ strContains missingEnvMsg "ENVIRONMENT_ID" = true) := by
  refine ⟨?_, ?_, ?_, ?_⟩
  · intro h
    unfold VoltageAPIClient.init
    rw [if_neg]
    intro hall
    simp only [Bool.and_eq_true] at hall
    exact h ⟨hall.1.1.1, hall.1.1.2, hall.1.2, hall.2⟩
  · intro h
    unfold VoltagePaymentsAPI.init
    rw [h]
  · intro b hb h
    unfold VoltagePaymentsAPI.init
    rw [hb]
    simp only
    rw [if_neg]
    intro hall
    simp only [Bool.and_eq_true] at hall
    exact h ⟨hall.1.1.2, hall.1.2, hall.2⟩
  · exact ⟨by decide, by decide, by decide, by decide⟩

/-- Witness for C4_amended_init_failure at concrete environments: `API_KEY`
unset makes both constructors fail with the `ValueError`, and an unset
`BASE_URL` makes `VoltagePaymentsAPI` fail with a `TypeError`. -/
theorem C4_amended_init_failure_witness :
    VoltageAPIClient.init ⟨some "u", none, some "o", some "e"⟩ =
        .valueError missingEnvMsg
    ∧ VoltagePaymentsAPI.init ⟨none, some "k", some "o", some "e"⟩ = .typeError
    ∧ VoltagePaymentsAPI.init ⟨some "u", none, some "o", some "e"⟩ =
        .valueError missingEnvMsg :=
  ⟨(C4_amended_init_failure ⟨some "u", none, some "o", some "e"⟩).1
      (by intro h; simp [pyTruthyOptStr] at h),
   (C4_amended_init_failure ⟨none, some "k", some "o", some "e"⟩).2.1 rfl,
   (C4_amended_init_failure ⟨some "u", none, some "o", some "e"⟩).2.2.1 "u" rfl
      (by intro h; simp [pyTruthyOptStr] at h)⟩

/-- What the status endpoint does on one polling attempt: an HTTP response
(status code, plus the JSON parse of its body — `none` when the body does
not parse), or a `requests.RequestException` raised during the attempt. -/
inductive PollEvent where
  | response (status : Nat) (bodyJson : Option Json) : PollEvent
  | requestError : PollEvent

/-- One iteration of the poll loop body (`voltage_payments_api.py` lines
134-157): the loop returns the parsed body exactly when the response status
is 200 and the body parses as JSON; every other event (404, any other
status, unparseable 200 body, request exception) falls through to the sleep
and the next attempt. -/
def pollStep : PollEvent → Option Json
  | .response status bodyJson => if status = 200 then bodyJson else none
  | .requestError => none

/-- The `ValueError` message raised at `voltage_payments_api.py` line 159;
it is built from `max_attempts` only. -/
def pollTimeoutMessage (max_attempts : Nat) : String :=
  "Failed to retrieve payment details after " ++ toString max_attempts ++ " attempts"

/-- Result of a poll sequence, together with the number of status requests
performed. -/
inductive PollOutcome where
  | success (body : Json) (requests : Nat) : PollOutcome
  | timeout (msg : String) (requests : Nat) : PollOutcome

/-- The poll loop from attempt index `i` with `remaining` attempts left;
`i` also counts the requests performed so far. -/
def pollLoopAux (events : Nat → PollEvent) (max_attempts : Nat) (i : Nat) :
    Nat → PollOutcome
  | 0 => .timeout (pollTimeoutMessage max_attempts) i
  | remaining + 1 =>
    match pollStep (events i) with
    | some j => .success j (i + 1)
    | none => pollLoopAux events max_attempts (i + 1) remaining

/-- `_poll_payment_status` (`voltage_payments_api.py` lines 115-159).  The
network is abstracted by `events`, giving the status endpoint's behaviour on
the n-th attempt; `payment_id` enters the source only through the polled URL
and the poll loop never inspects it. -/
def poll_payment_status (events : Nat → PollEvent) (payment_id : String)
    (max_attempts : Nat := 5) : PollOutcome :=
  pollLoopAux events max_attempts 0 max_attempts

/-- Attempts whose step yields no result are skipped: the loop advances past
`j` consecutive non-returning attempts. -/
theorem pollLoopAux_skip (events : Nat → PollEvent) (m : Nat) :
    ∀ (j i r : Nat), (∀ n, i ≤ n → n < i + j → pollStep (events n) = none) →
      pollLoopAux events m i (j + r) = pollLoopAux events m (i + j) r := by
  intro j
  induction j with
  | zero =>
    intro i r _
    simp
  | succ k ih =>
    intro i r h
    have hstep : pollStep (events i) = none := h i (Nat.le_refl i) (by omega)
    have hrw : k + 1 + r = (k + r) + 1 := by omega
    rw [hrw]
    show (match pollStep (events i) with
      | some j => PollOutcome.success j (i + 1)
      | none => pollLoopAux events m (i + 1) (k + r)) = _
    rw [hstep]
    have := ih (i + 1) r (fun n hn hn2 => h n (by omega) (by omega))
    rw [this]
    have : i + 1 + k = i + (k + 1) := by omega
    rw [this]

/-- A 404 response never returns from the loop body. -/
theorem pollStep_404 (b : Option Json) : pollStep (.response 404 b) = none := by
  simp [pollStep]

/-- C1: poll sequences of `_poll_payment_status` with `max_attempts = 5`.
If the status endpoint answers 404 for the first `k < 5` attempts and then
200 with a valid JSON body, the poller returns that body after exactly
`k + 1` status requests; if all 5 attempts answer 404, it raises the
poll-timeout `ValueError` after exactly 5 requests. -/
theorem C1_poll_sequences (events : Nat → PollEvent) (payment_id : String) :
    (∀ (k : Nat) (j : Json), k < 5 →
      (∀ n, n < k → ∃ b, events n = .response 404 b) →
      events k = .response 200 (some j) →
      poll_payment_status events payment_id 5 = .success j (k + 1))
    ∧ ((∀ n, n < 5 → ∃ b, events n = .response 404 b) →
      poll_payment_status events payment_id 5 =
        .timeout (pollTimeoutMessage 5) 5) := by
  constructor
  · intro k j hk h404 h200
    have hskip : ∀ n, 0 ≤ n → n < 0 + k → pollStep (events n) = none := by
      intro n _ hn
      obtain ⟨b, hb⟩ := h404 n (by omega)
      rw [hb]
      exact pollStep_404 b
    have h5 : (5 : Nat) = k + (5 - k) := by omega
    unfold poll_payment_status
    nth_rewrite 2 [h5]
    rw [pollLoopAux_skip events 5 k 0 (5 - k) hskip]
    have hsub : 5 - k = (4 - k) + 1 := by omega
    rw [hsub]
    show (match pollStep (events (0 + k)) with
      | some j => PollOutcome.success j (0 + k + 1)
      | none => pollLoopAux events 5 (0 + k + 1) (4 - k)) = _
    rw [Nat.zero_add, h200]
    simp [pollStep]
  · intro h404
    have hskip : ∀ n, 0 ≤ n → n < 0 + 5 → pollStep (events n) = none := by
      intro n _ hn
      obtain ⟨b, hb⟩ := h404 n (by omega)
      rw [hb]
      exact pollStep_404 b
    unfold poll_payment_status
    have h5 : (5 : Nat) = 5 + 0 := rfl
    nth_rewrite 3 [h5]
    rw [pollLoopAux_skip events 5 5 0 0 hskip]
    rfl

/-- Status-endpoint behaviour used by the C1 witness: 404 on the first two
attempts, then 200 with the empty JSON object. -/
def c1Events : Nat → PollEvent := fun n =>
  if n < 2 then .response 404 none else .response 200 (some (.obj []))

/-- Witness for C1_poll_sequences: with 404 twice then 200, the poller
succeeds after 3 requests; with 404 five times, it times out after 5. -/
theorem C1_poll_sequences_witness :
    poll_payment_status c1Events "pid" 5 = .success (.obj []) 3
    ∧ poll_payment_status (fun _ => .response 404 none) "pid" 5 =
        .timeout (pollTimeoutMessage 5) 5 :=
  ⟨(C1_poll_sequences c1Events "pid").1 2 (.obj []) (by omega)
      (fun n hn => ⟨none, by simp [c1Events, hn]⟩) (by simp [c1Events]),
   (C1_poll_sequences (fun _ => .response 404 none) "pid").2
      (fun n _ => ⟨none, rfl⟩)⟩

/-- C3 counterexample: the poll-timeout `ValueError` message is built from
`max_attempts` alone (`voltage_payments_api.py` line 159); for the concrete
correlation id "corr-id-xyz" the raised message does not contain the
correlation id, refuting the claim that the error names both the correlation
id and the attempt count. -/
theorem C3_counterexample :
    poll_payment_status (fun _ => .response 404 none) "corr-id-xyz" 5 =
      .timeout (pollTimeoutMessage 5) 5
    ∧ strContains (pollTimeoutMessage 5) "corr-id-xyz" = false
    ∧ strContains (pollTimeoutMessage 5) "5" = true := by
  refine ⟨rfl, by decide, by decide⟩

/-- C3 (amended): when the poll loop exhausts all attempts without a
returning response, it raises a timeout `ValueError` whose message names the
attempt count; the message is a fixed string independent of the correlation
id, which does not appear in it. -/
theorem C3_amended_timeout_names_attempts (events : Nat → PollEvent)
    (payment_id : String)
    (h : ∀ n, n < 5 → pollStep (events n) = none) :
    poll_payment_status events payment_id 5 =
      .timeout (pollTimeoutMessage 5) 5
    ∧ strContains (pollTimeoutMessage 5) "5" = true
    ∧ (∀ pid : String, poll_payment_status events pid 5 =
        poll_payment_status events payment_id 5) := by
  refine ⟨?_, by decide, fun _ => rfl⟩
  unfold poll_payment_status
  have h5 : (5 : Nat) = 5 + 0 := rfl
  nth_rewrite 3 [h5]
  rw [pollLoopAux_skip events 5 5 0 0 (fun n _ hn => h n (by omega))]
  rfl

/-- Witness for C3_amended_timeout_names_attempts: all five attempts answer
404 for correlation id "abc". -/
theorem C3_amended_timeout_names_attempts_witness :
    poll_payment_status (fun _ => .response 404 none) "abc" 5 =
      .timeout (pollTimeoutMessage 5) 5
    ∧ strContains (pollTimeoutMessage 5) "5" = true :=
  ⟨(C3_amended_timeout_names_attempts (fun _ => .response 404 none) "abc"
      (fun n _ => rfl)).1,
   (C3_amended_timeout_names_attempts (fun _ => .response 404 none) "abc"
      (fun n _ => rfl)).2.1⟩

/-- An HTTP response as the client sees it: status code, raw body text, and
the JSON parse of the body (`none` when `response.json()` would raise). -/
structure HttpResponse where
  status : Nat
  text : String
  json : Option Json

/-- Exceptions surfaced by the facade methods: `requests.HTTPError` from
`raise_for_status` (carrying the response's status and body), the explicit
`ValueError` wrappers, and a raw `json.JSONDecodeError`. -/
inductive PyError where
  | httpError (status : Nat) (text : String) : PyError
  | valueError (msg : String) : PyError
  | jsonDecodeError : PyError

/-- `requests.Response.raise_for_status`: raises `HTTPError` exactly for
status codes in [400, 600) (4xx client errors and 5xx server errors); all
other codes, including 1xx and 3xx, do not raise. -/
def raise_for_status (r : HttpResponse) : Option PyError :=
  if 400 ≤ r.status ∧ r.status < 600 then some (.httpError r.status r.text)
  else none

/-- Stand-in for the `ValueError` message wrapping a JSON decode failure
(the source interpolates the decode error's text; only the fact that a
`ValueError` is raised matters here). -/
def invalidJsonMsg : String := "Invalid JSON response from API"

/-- The request body built by `generate_bolt11_invoice`
(`voltage_payments_api.py` lines 69-84): five fixed keys, then
`description` appended only when `if memo:` is truthy (so `None` and the
empty string both omit it). -/
def generate_bolt11_invoice_payload (payment_id wallet_id : String)
    (amount_sats : Int) (memo : Option String) : List (String × Json) :=
  let amount_msats := amount_sats * 1000
  let payload := [("id", Json.str payment_id), ("wallet_id", Json.str wallet_id),
    ("currency", Json.str "btc"), ("payment_kind", Json.str "bolt11"),
    ("amount_msats", Json.num amount_msats)]
  match memo with
  | some m => if m != "" then payload ++ [("description", Json.str m)] else payload
  | none => payload

/-- Outcome of a payment-creation call: on HTTP 202 the poller is invoked
with a correlation id (recorded in the constructor), otherwise the body is
returned or an error raised. -/
inductive SubmitOutcome where
  | polled (poll_payment_id : String) (outcome : PollOutcome) : SubmitOutcome
  | ok (body : Json) : SubmitOutcome
  | error (e : PyError) : SubmitOutcome

/-- `generate_bolt11_invoice` (`voltage_payments_api.py` lines 49-113) with
the generated `uuid.uuid4()` and the network made explicit: returns the
outbound payload together with the call's outcome.  Status 202 is checked
before `raise_for_status` (line 94), and the poller is called with the
`payment_id` that was placed in the payload. -/
def generate_bolt11_invoice (payment_id wallet_id : String) (amount_sats : Int)
    (memo : Option String) (resp : HttpResponse) (pollEvents : Nat → PollEvent) :
    List (String × Json) × SubmitOutcome :=
  let payload := generate_bolt11_invoice_payload payment_id wallet_id amount_sats memo
  (payload,
    if resp.status = 202 then
      .polled payment_id (poll_payment_status pollEvents payment_id 5)
    else
      match raise_for_status resp with
      | some e => .error e
      | none =>
        match resp.json with
        | some j => .ok j
        | none => .error (.valueError invalidJsonMsg))

/-- The payload of `generate_bolt11_invoice` carries the converted amount
under `amount_msats` and the correlation id under `id`, for any memo. -/
theorem lookup_invoice_payload (payment_id wallet_id : String)
    (amount_sats : Int) (memo : Option String) :
    lookupKey "amount_msats"
        (generate_bolt11_invoice_payload payment_id wallet_id amount_sats memo) =
      some (.num (amount_sats * 1000))
    ∧ lookupKey "id"
        (generate_bolt11_invoice_payload payment_id wallet_id amount_sats memo) =
      some (.str payment_id) := by
  unfold generate_bolt11_invoice_payload
  rcases memo with _ | m
  · exact ⟨rfl, rfl⟩
  · simp only
    cases hm : (m != "")
    · simp only [hm, if_neg Bool.false_ne_true]
      exact ⟨rfl, rfl⟩
    · simp only [hm, if_pos rfl]
      exact ⟨by simp [lookupKey], by simp [lookupKey]⟩

/-- C2: for every non-negative `amount_sats`, the outbound payload of
`generate_bolt11_invoice` has `amount_msats = amount_sats * 1000` and `id`
equal to the correlation id generated before the request; when the
submission returns HTTP 202, that same correlation id is passed verbatim to
`_poll_payment_status`. -/
theorem C2_invoice_amount_and_correlation_id (payment_id wallet_id : String)
    (amount_sats : Int) (memo : Option String) (resp : HttpResponse)
    (pollEvents : Nat → PollEvent) (hpos : 0 ≤ amount_sats) :
    lookupKey "amount_msats"
        (generate_bolt11_invoice payment_id wallet_id amount_sats memo resp
          pollEvents).1 =
      some (.num (amount_sats * 1000))
    ∧ lookupKey "id"
        (generate_bolt11_invoice payment_id wallet_id amount_sats memo resp
          pollEvents).1 =
      some (.str payment_id)
    ∧ (resp.status = 202 →
        (generate_bolt11_invoice payment_id wallet_id amount_sats memo resp
          pollEvents).2 =
        .polled payment_id (poll_payment_status pollEvents payment_id 5)) := by
  obtain ⟨h1, h2⟩ := lookup_invoice_payload payment_id wallet_id amount_sats memo
  refine ⟨h1, h2, fun h202 => ?_⟩
  simp [generate_bolt11_invoice, h202]

/-- Witness for C2_invoice_amount_and_correlation_id: 21 satoshis are
transmitted as 21000 millisatoshis, and a 202 response routes the generated
id "p-1" to the poller. -/
theorem C2_invoice_amount_and_correlation_id_witness :
    lookupKey "amount_msats"
        (generate_bolt11_invoice "p-1" "w-1" 21 none ⟨202, "", none⟩
          (fun _ => .response 404 none)).1 =
      some (.num 21000)
    ∧ (generate_bolt11_invoice "p-1" "w-1" 21 none ⟨202, "", none⟩
          (fun _ => .response 404 none)).2 =
      .polled "p-1"
        (poll_payment_status (fun _ => .response 404 none) "p-1" 5) :=
  ⟨(C2_invoice_amount_and_correlation_id "p-1" "w-1" 21 none ⟨202, "", none⟩
      (fun _ => .response 404 none) (by omega)).1,
   (C2_invoice_amount_and_correlation_id "p-1" "w-1" 21 none ⟨202, "", none⟩
      (fun _ => .response 404 none) (by omega)).2.2 rfl⟩

/-- C10: in `generate_bolt11_invoice`, an empty-string memo is
indistinguishable from an omitted memo (the check at
`voltage_payments_api.py` line 83 is `if memo:`, i.e. truthiness): the
payloads are equal and neither contains a `description` key. -/
theorem C10_empty_memo_same_as_omitted (payment_id wallet_id : String)
    (amount_sats : Int) :
    generate_bolt11_invoice_payload payment_id wallet_id amount_sats (some "") =
      generate_bolt11_invoice_payload payment_id wallet_id amount_sats none
    ∧ lookupKey "description"
        (generate_bolt11_invoice_payload payment_id wallet_id amount_sats
          (some "")) = none := by
  exact ⟨rfl, rfl⟩

/-- The `data` object built by `pay_bolt11_invoice`
(`voltage_payments_api.py` lines 224-233): `payment_request` always, then
`amount_msats` only when `amount_sats is not None`, then `max_fee_msats`
only when `fee_limit_sats is not None`, each converted satoshis × 1000. -/
def pay_bolt11_data (payment_request : String)
    (amount_sats fee_limit_sats : Option Int) : List (String × Json) :=
  let data := [("payment_request", Json.str payment_request)]
  let data := match amount_sats with
    | some a => data ++ [("amount_msats", Json.num (a * 1000))]
    | none => data
  match fee_limit_sats with
  | some f => data ++ [("max_fee_msats", Json.num (f * 1000))]
  | none => data

/-- The full request body of `pay_bolt11_invoice`
(`voltage_payments_api.py` lines 235-241). -/
def pay_bolt11_invoice_payload (payment_id wallet_id payment_request : String)
    (amount_sats fee_limit_sats : Option Int) : List (String × Json) :=
  [("id", Json.str payment_id), ("wallet_id", Json.str wallet_id),
   ("currency", Json.str "btc"), ("type", Json.str "bolt11"),
   ("data", Json.obj (pay_bolt11_data payment_request amount_sats fee_limit_sats))]

/-- C5: in `pay_bolt11_invoice`, an omitted `amount_sats` leaves the
`amount_msats` key entirely absent from the outbound `data` object, and an
omitted `fee_limit_sats` leaves `max_fee_msats` absent (no zero, no null);
when supplied, each is transmitted as the satoshi value times 1000. -/
theorem C5_optional_fields_omitted (payment_request : String)
    (amount_sats fee_limit_sats : Option Int) :
    (amount_sats = none →
      lookupKey "amount_msats"
        (pay_bolt11_data payment_request amount_sats fee_limit_sats) = none
      ∧ "amount_msats" ∉
        (pay_bolt11_data payment_request amount_sats fee_limit_sats).map Prod.fst)
    ∧ (fee_limit_sats = none →
      lookupKey "max_fee_msats"
        (pay_bolt11_data payment_request amount_sats fee_limit_sats) = none
      ∧ "max_fee_msats" ∉
        (pay_bolt11_data payment_request amount_sats fee_limit_sats).map Prod.fst)
    ∧ (∀ a : Int, amount_sats = some a →
      lookupKey "amount_msats"
        (pay_bolt11_data payment_request amount_sats fee_limit_sats) =
        some (.num (a * 1000)))
    ∧ (∀ f : Int, fee_limit_sats = some f →
      lookupKey "max_fee_msats"
        (pay_bolt11_data payment_request amount_sats fee_limit_sats) =
        some (.num (f * 1000))) := by
  refine ⟨?_, ?_, ?_, ?_⟩
  · rintro rfl
    rcases fee_limit_sats with _ | f <;>
      exact ⟨by simp [pay_bolt11_data, lookupKey], by simp [pay_bolt11_data]⟩
  · rintro rfl
    rcases amount_sats with _ | a <;>
      exact ⟨by simp [pay_bolt11_data, lookupKey], by simp [pay_bolt11_data]⟩
  · rintro a rfl
    rcases fee_limit_sats with _ | f <;> simp [pay_bolt11_data, lookupKey]
  · rintro f rfl
    rcases amount_sats with _ | a <;> simp [pay_bolt11_data, lookupKey]

/-- Witness for C5_optional_fields_omitted: with both options omitted the
keys are absent; with 2 and 3 satoshis supplied they are sent as 2000 and
3000 millisatoshis. -/
theorem C5_optional_fields_omitted_witness :
    lookupKey "amount_msats" (pay_bolt11_data "lnbc1" none none) = none
    ∧ lookupKey "max_fee_msats" (pay_bolt11_data "lnbc1" none none) = none
    ∧ lookupKey "amount_msats" (pay_bolt11_data "lnbc1" (some 2) (some 3)) =
        some (.num 2000)
    ∧ lookupKey "max_fee_msats" (pay_bolt11_data "lnbc1" (some 2) (some 3)) =
        some (.num 3000) :=
  ⟨((C5_optional_fields_omitted "lnbc1" none none).1 rfl).1,
   ((C5_optional_fields_omitted "lnbc1" none none).2.1 rfl).1,
   (C5_optional_fields_omitted "lnbc1" (some 2) (some 3)).2.2.1 2 rfl,
   (C5_optional_fields_omitted "lnbc1" (some 2) (some 3)).2.2.2 3 rfl⟩

/-- A query-parameter value as passed to `requests.get(..., params=params)`:
the ints, strings, and (for `statuses`) lists of strings this client puts in
the dict. -/
inductive ParamVal where
  | int (n : Int) : ParamVal
  | str (s : String) : ParamVal
  | strList (xs : List String) : ParamVal

/-- One `if x is not None: params[name] = x` step for an int-valued filter. -/
def optIntParam (n : String) : Option Int → List (String × ParamVal)
  | some v => [(n, .int v)]
  | none => []

/-- One `if x is not None: params[name] = x` step for a string-valued filter. -/
def optStrParam (n : String) : Option String → List (String × ParamVal)
  | some v => [(n, .str v)]
  | none => []

/-- One `if x is not None: params[name] = x` step for a list-valued filter. -/
def optStrListParam (n : String) : Option (List String) → List (String × ParamVal)
  | some v => [(n, .strList v)]
  | none => []

theorem keys_optIntParam (name n : String) (v : Option Int) :
    name ∈ (optIntParam n v).map Prod.fst ↔ name = n ∧ v.isSome = true := by
  cases v <;> simp [optIntParam]

theorem keys_optStrParam (name n : String) (v : Option String) :
    name ∈ (optStrParam n v).map Prod.fst ↔ name = n ∧ v.isSome = true := by
  cases v <;> simp [optStrParam]

theorem keys_optStrListParam (name n : String) (v : Option (List String)) :
    name ∈ (optStrListParam n v).map Prod.fst ↔ name = n ∧ v.isSome = true := by
  cases v <;> simp [optStrListParam]

theorem lookupKey_optIntParam_self (n : String) (v : Option Int) :
    lookupKey n (optIntParam n v) = v.map ParamVal.int := by
  cases v <;> simp [optIntParam, lookupKey]

theorem lookupKey_optStrParam_self (n : String) (v : Option String) :
    lookupKey n (optStrParam n v) = v.map ParamVal.str := by
  cases v <;> simp [optStrParam, lookupKey]

theorem lookupKey_optStrListParam_self (n : String) (v : Option (List String)) :
    lookupKey n (optStrListParam n v) = v.map ParamVal.strList := by
  cases v <;> simp [optStrListParam, lookupKey]

theorem lookupKey_optIntParam_ne (k n : String) (h : ¬ k = n) (v : Option Int) :
    lookupKey k (optIntParam n v) = none := by
  cases v <;> simp [optIntParam, lookupKey, h]

theorem lookupKey_optStrParam_ne (k n : String) (h : ¬ k = n) (v : Option String) :
    lookupKey k (optStrParam n v) = none := by
  cases v <;> simp [optStrParam, lookupKey, h]

theorem lookupKey_optStrListParam_ne (k n : String) (h : ¬ k = n)
    (v : Option (List String)) :
    lookupKey k (optStrListParam n v) = none := by
  cases v <;> simp [optStrListParam, lookupKey, h]

/-- The query-parameter dict built by `get_wallet_ledger_as_user`
(`voltage_payments_api.py` lines 424-438): seven independent
`if x is not None` insertions, in source order. -/
def get_wallet_ledger_params (offset limit : Option Int)
    (payment_id start_date end_date sort_key sort_order : Option String) :
    List (String × ParamVal) :=
  optIntParam "offset" offset ++ optIntParam "limit" limit
    ++ optStrParam "payment_id" payment_id ++ optStrParam "start_date" start_date
    ++ optStrParam "end_date" end_date ++ optStrParam "sort_key" sort_key
    ++ optStrParam "sort_order" sort_order

/-- The query-parameter dict built by `get_payments`
(`voltage_payments_api.py` lines 492-512): ten independent
`if x is not None` insertions, in source order. -/
def get_payments_params (offset limit : Option Int) (wallet_id : Option String)
    (statuses : Option (List String))
    (sort_key sort_order kind direction start_date end_date : Option String) :
    List (String × ParamVal) :=
  optIntParam "offset" offset ++ optIntParam "limit" limit
    ++ optStrParam "wallet_id" wallet_id ++ optStrListParam "statuses" statuses
    ++ optStrParam "sort_key" sort_key ++ optStrParam "sort_order" sort_order
    ++ optStrParam "kind" kind ++ optStrParam "direction" direction
    ++ optStrParam "start_date" start_date ++ optStrParam "end_date" end_date


/-- Key-presence characterisation for the ledger query parameters. -/
theorem ledger_keys_iff (offset limit : Option Int)
    (payment_id start_date end_date sort_key sort_order : Option String) :
    ∀ name : String, name ∈
        (get_wallet_ledger_params offset limit payment_id start_date end_date
          sort_key sort_order).map Prod.fst ↔
        (name = "offset" ∧ offset.isSome = true)
        ∨ (name = "limit" ∧ limit.isSome = true)
        ∨ (name = "payment_id" ∧ payment_id.isSome = true)
        ∨ (name = "start_date" ∧ start_date.isSome = true)
        ∨ (name = "end_date" ∧ end_date.isSome = true)
        ∨ (name = "sort_key" ∧ sort_key.isSome = true)
        ∨ (name = "sort_order" ∧ sort_order.isSome = true) := by
  intro name
  simp only [get_wallet_ledger_params, List.map_append, List.mem_append,
    keys_optIntParam, keys_optStrParam, keys_optStrListParam, or_assoc]

/-- Key-presence characterisation for the payments-list query parameters. -/
theorem payments_keys_iff (offset limit : Option Int) (wallet_id : Option String)
    (statuses : Option (List String))
    (sort_key sort_order kind direction start_date end_date : Option String) :
    ∀ name : String, name ∈
        (get_payments_params offset limit wallet_id statuses sort_key
          sort_order kind direction start_date end_date).map Prod.fst ↔
        (name = "offset" ∧ offset.isSome = true)
        ∨ (name = "limit" ∧ limit.isSome = true)
        ∨ (name = "wallet_id" ∧ wallet_id.isSome = true)
        ∨ (name = "statuses" ∧ statuses.isSome = true)
        ∨ (name = "sort_key" ∧ sort_key.isSome = true)
        ∨ (name = "sort_order" ∧ sort_order.isSome = true)
        ∨ (name = "kind" ∧ kind.isSome = true)
        ∨ (name = "direction" ∧ direction.isSome = true)
        ∨ (name = "start_date" ∧ start_date.isSome = true)
        ∨ (name = "end_date" ∧ end_date.isSome = true) := by
  intro name
  simp only [get_payments_params, List.map_append, List.mem_append,
    keys_optIntParam, keys_optStrParam, keys_optStrListParam, or_assoc]

/-- Each supplied ledger filter is transmitted verbatim under its key. -/
theorem ledger_lookups (offset limit : Option Int)
    (payment_id start_date end_date sort_key sort_order : Option String) :
    lookupKey "offset" (get_wallet_ledger_params offset limit payment_id
        start_date end_date sort_key sort_order) = offset.map ParamVal.int
    ∧ lookupKey "limit" (get_wallet_ledger_params offset limit payment_id
        start_date end_date sort_key sort_order) = limit.map ParamVal.int
    ∧ lookupKey "payment_id" (get_wallet_ledger_params offset limit payment_id
        start_date end_date sort_key sort_order) = payment_id.map ParamVal.str
    ∧ lookupKey "start_date" (get_wallet_ledger_params offset limit payment_id
        start_date end_date sort_key sort_order) = start_date.map ParamVal.str
    ∧ lookupKey "end_date" (get_wallet_ledger_params offset limit payment_id
        start_date end_date sort_key sort_order) = end_date.map ParamVal.str
    ∧ lookupKey "sort_key" (get_wallet_ledger_params offset limit payment_id
        start_date end_date sort_key sort_order) = sort_key.map ParamVal.str
    ∧ lookupKey "sort_order" (get_wallet_ledger_params offset limit payment_id
        start_date end_date sort_key sort_order) = sort_order.map ParamVal.str := by
  refine ⟨?_, ?_, ?_, ?_, ?_, ?_, ?_⟩ <;>
    simp [get_wallet_ledger_params, lookupKey_append,
      lookupKey_optIntParam_self, lookupKey_optStrParam_self,
      lookupKey_optIntParam_ne, lookupKey_optStrParam_ne,
      Option.none_orElse', Option.orElse_none']

/-- Each supplied payments-list filter is transmitted verbatim under its
key. -/
theorem payments_lookups (offset limit : Option Int) (wallet_id : Option String)
    (statuses : Option (List String))
    (sort_key sort_order kind direction start_date end_date : Option String) :
    lookupKey "offset" (get_payments_params offset limit wallet_id statuses
        sort_key sort_order kind direction start_date end_date) =
      offset.map ParamVal.int
    ∧ lookupKey "limit" (get_payments_params offset limit wallet_id statuses
        sort_key sort_order kind direction start_date end_date) =
      limit.map ParamVal.int
    ∧ lookupKey "wallet_id" (get_payments_params offset limit wallet_id statuses
        sort_key sort_order kind direction start_date end_date) =
      wallet_id.map ParamVal.str
    ∧ lookupKey "statuses" (get_payments_params offset limit wallet_id statuses
        sort_key sort_order kind direction start_date end_date) =
      statuses.map ParamVal.strList
    ∧ lookupKey "sort_key" (get_payments_params offset limit wallet_id statuses
        sort_key sort_order kind direction start_date end_date) =
      sort_key.map ParamVal.str
    ∧ lookupKey "sort_order" (get_payments_params offset limit wallet_id statuses
        sort_key sort_order kind direction start_date end_date) =
      sort_order.map ParamVal.str
    ∧ lookupKey "kind" (get_payments_params offset limit wallet_id statuses
        sort_key sort_order kind direction start_date end_date) =
      kind.map ParamVal.str
    ∧ lookupKey "direction" (get_payments_params offset limit wallet_id statuses
        sort_key sort_order kind direction start_date end_date) =
      direction.map ParamVal.str
    ∧ lookupKey "start_date" (get_payments_params offset limit wallet_id statuses
        sort_key sort_order kind direction start_date end_date) =
      start_date.map ParamVal.str
    ∧ lookupKey "end_date" (get_payments_params offset limit wallet_id statuses
        sort_key sort_order kind direction start_date end_date) =
      end_date.map ParamVal.str := by
  refine ⟨?_, ?_, ?_, ?_, ?_, ?_, ?_, ?_, ?_, ?_⟩ <;>
    simp [get_payments_params, lookupKey_append,
      lookupKey_optIntParam_self, lookupKey_optStrParam_self,
      lookupKey_optStrListParam_self, lookupKey_optIntParam_ne,
      lookupKey_optStrParam_ne, lookupKey_optStrListParam_ne,
      Option.none_orElse', Option.orElse_none']

/-- C6: for `get_wallet_ledger_as_user` and `get_payments`, supplying no
optional filters produces a query-parameter set with zero entries; a key is
present exactly when the corresponding filter was supplied (an omitted
filter never appears, not even as null or empty string), and each supplied
filter's value is transmitted verbatim under its key. -/
theorem C6_query_filters (offset limit : Option Int)
    (payment_id start_date end_date sort_key sort_order : Option String)
    (poffset plimit : Option Int) (wallet_id : Option String)
    (statuses : Option (List String))
    (psort_key psort_order kind direction pstart_date pend_date : Option String) :
    get_wallet_ledger_params none none none none none none none = []
    ∧ get_payments_params none none none none none none none none none none = []
    ∧ (∀ name : String, name ∈
        (get_wallet_ledger_params offset limit payment_id start_date end_date
          sort_key sort_order).map Prod.fst ↔
        (name = "offset" ∧ offset.isSome = true)
        ∨ (name = "limit" ∧ limit.isSome = true)
        ∨ (name = "payment_id" ∧ payment_id.isSome = true)
        ∨ (name = "start_date" ∧ start_date.isSome = true)
        ∨ (name = "end_date" ∧ end_date.isSome = true)
        ∨ (name = "sort_key" ∧ sort_key.isSome = true)
        ∨ (name = "sort_order" ∧ sort_order.isSome = true))
    ∧ (∀ name : String, name ∈
        (get_payments_params poffset plimit wallet_id statuses psort_key
          psort_order kind direction pstart_date pend_date).map Prod.fst ↔
        (name = "offset" ∧ poffset.isSome = true)
        ∨ (name = "limit" ∧ plimit.isSome = true)
        ∨ (name = "wallet_id" ∧ wallet_id.isSome = true)
        ∨ (name = "statuses" ∧ statuses.isSome = true)
        ∨ (name = "sort_key" ∧ psort_key.isSome = true)
        ∨ (name = "sort_order" ∧ psort_order.isSome = true)
        ∨ (name = "kind" ∧ kind.isSome = true)
        ∨ (name = "direction" ∧ direction.isSome = true)
        ∨ (name = "start_date" ∧ pstart_date.isSome = true)
        ∨ (name = "end_date" ∧ pend_date.isSome = true))
    ∧ lookupKey "offset" (get_wallet_ledger_params offset limit payment_id
        start_date end_date sort_key sort_order) = offset.map ParamVal.int
    ∧ lookupKey "limit" (get_wallet_ledger_params offset limit payment_id
        start_date end_date sort_key sort_order) = limit.map ParamVal.int
    ∧ lookupKey "payment_id" (get_wallet_ledger_params offset limit payment_id
        start_date end_date sort_key sort_order) = payment_id.map ParamVal.str
    ∧ lookupKey "start_date" (get_wallet_ledger_params offset limit payment_id
        start_date end_date sort_key sort_order) = start_date.map ParamVal.str
    ∧ lookupKey "end_date" (get_wallet_ledger_params offset limit payment_id
        start_date end_date sort_key sort_order) = end_date.map ParamVal.str
    ∧ lookupKey "sort_key" (get_wallet_ledger_params offset limit payment_id
        start_date end_date sort_key sort_order) = sort_key.map ParamVal.str
    ∧ lookupKey "sort_order" (get_wallet_ledger_params offset limit payment_id
        start_date end_date sort_key sort_order) = sort_order.map ParamVal.str
    ∧ lookupKey "offset" (get_payments_params poffset plimit wallet_id statuses
        psort_key psort_order kind direction pstart_date pend_date) =
        poffset.map ParamVal.int
    ∧ lookupKey "limit" (get_payments_params poffset plimit wallet_id statuses
        psort_key psort_order kind direction pstart_date pend_date) =
        plimit.map ParamVal.int
    ∧ lookupKey "wallet_id" (get_payments_params poffset plimit wallet_id statuses
        psort_key psort_order kind direction pstart_date pend_date) =
        wallet_id.map ParamVal.str
    ∧ lookupKey "statuses" (get_payments_params poffset plimit wallet_id statuses
        psort_key psort_order kind direction pstart_date pend_date) =
        statuses.map ParamVal.strList
    ∧ lookupKey "sort_key" (get_payments_params poffset plimit wallet_id statuses
        psort_key psort_order kind direction pstart_date pend_date) =
        psort_key.map ParamVal.str
    ∧ lookupKey "sort_order" (get_payments_params poffset plimit wallet_id statuses
        psort_key psort_order kind direction pstart_date pend_date) =
        psort_order.map ParamVal.str
    ∧ lookupKey "kind" (get_payments_params poffset plimit wallet_id statuses
        psort_key psort_order kind direction pstart_date pend_date) =
        kind.map ParamVal.str
    ∧ lookupKey "direction" (get_payments_params poffset plimit wallet_id statuses
        psort_key psort_order kind direction pstart_date pend_date) =
        direction.map ParamVal.str
    ∧ lookupKey "start_date" (get_payments_params poffset plimit wallet_id statuses
        psort_key psort_order kind direction pstart_date pend_date) =
        pstart_date.map ParamVal.str
    ∧ lookupKey "end_date" (get_payments_params poffset plimit wallet_id statuses
        psort_key psort_order kind direction pstart_date pend_date) =
        pend_date.map ParamVal.str := by
  obtain ⟨l1, l2, l3, l4, l5, l6, l7⟩ :=
    ledger_lookups offset limit payment_id start_date end_date sort_key sort_order
  obtain ⟨p1, p2, p3, p4, p5, p6, p7, p8, p9, p10⟩ :=
    payments_lookups poffset plimit wallet_id statuses psort_key psort_order
      kind direction pstart_date pend_date
  exact ⟨rfl, rfl,
    ledger_keys_iff offset limit payment_id start_date end_date sort_key sort_order,
    payments_keys_iff poffset plimit wallet_id statuses psort_key psort_order
      kind direction pstart_date pend_date,
    l1, l2, l3, l4, l5, l6, l7, p1, p2, p3, p4, p5, p6, p7, p8, p9, p10⟩

/-- `check_payment_status` (`voltage_payments_api.py` lines 161-198),
response handling only: `raise_for_status`, then `response.json()` with the
decode error wrapped in a `ValueError`.  No 202 special case exists here
(202 is 2xx and falls through to parsing). -/
def check_payment_status (r : HttpResponse) : Except PyError Json :=
  match raise_for_status r with
  | some e => .error e
  | none =>
    match r.json with
    | some j => .ok j
    | none => .error (.valueError invalidJsonMsg)

/-- `VoltageAPIClient.get_all_wallets` (`http_client.py` lines 25-35),
response handling only: `raise_for_status`, then `response.json()` whose
decode error propagates unwrapped. -/
def get_all_wallets (r : HttpResponse) : Except PyError Json :=
  match raise_for_status r with
  | some e => .error e
  | none =>
    match r.json with
    | some j => .ok j
    | none => .error .jsonDecodeError

/-- C7 counterexample: a response with HTTP status 304 (not in [200,300),
and not 202) and a parseable body is returned as SUCCESS by
`check_payment_status` — `raise_for_status` only raises for statuses in
[400,600), so 1xx and 3xx statuses do not raise the transport error the
claim requires. -/
theorem C7_counterexample :
    check_payment_status ⟨304, "{}", some (.obj [])⟩ = .ok (.obj [])
    ∧ get_all_wallets ⟨304, "{}", some (.obj [])⟩ = .ok (.obj []) := by
  exact ⟨rfl, rfl⟩

/-- C7 (amended): for the non-polling operations, a response status in
[400,600) raises `requests.HTTPError` carrying the original status code and
the response body text; a status in [200,300) with a parseable body is
treated as success.  Statuses outside both ranges (1xx, 3xx) do not raise
and fall through to body parsing. -/
theorem C7_amended_status_handling (r : HttpResponse) :
    (400 ≤ r.status → r.status < 600 →
      check_payment_status r = .error (.httpError r.status r.text)
      ∧ get_all_wallets r = .error (.httpError r.status r.text))
    ∧ (200 ≤ r.status → r.status < 300 → ∀ j : Json, r.json = some j →
      check_payment_status r = .ok j ∧ get_all_wallets r = .ok j)
    ∧ (r.status < 400 ∨ 600 ≤ r.status → ∀ j : Json, r.json = some j →
      check_payment_status r = .ok j ∧ get_all_wallets r = .ok j) := by
  refine ⟨fun h4 h6 => ?_, fun h2 h3 j hj => ?_, fun hout j hj => ?_⟩
  · have he : raise_for_status r = some (.httpError r.status r.text) := by
      unfold raise_for_status
      rw [if_pos ⟨h4, h6⟩]
    constructor
    · unfold check_payment_status
      rw [he]
    · unfold get_all_wallets
      rw [he]
  · have he : raise_for_status r = none := by
      unfold raise_for_status
      rw [if_neg]
      omega
    constructor
    · unfold check_payment_status
      rw [he, hj]
    · unfold get_all_wallets
      rw [he, hj]
  · have he : raise_for_status r = none := by
      unfold raise_for_status
      rw [if_neg]
      omega
    constructor
    · unfold check_payment_status
      rw [he, hj]
    · unfold get_all_wallets
      rw [he, hj]

/-- Witness for C7_amended_status_handling: a 404 raises the `HTTPError`
with status 404 and the body text, and a 200 with a parseable body is
returned as success. -/
theorem C7_amended_status_handling_witness :
    check_payment_status ⟨404, "not found", none⟩ =
      .error (.httpError 404 "not found")
    ∧ check_payment_status ⟨200, "{}", some (.obj [])⟩ = .ok (.obj []) :=
  ⟨((C7_amended_status_handling ⟨404, "not found", none⟩).1
      (by decide) (by decide)).1,
   ((C7_amended_status_handling ⟨200, "{}", some (.obj [])⟩).2.1
      (by decide) (by decide) (.obj []) rfl).1⟩

/-- The synthesized success object returned by `delete_wallet` when the
response body is empty (`voltage_payments_api.py` line 380). -/
def deleteSuccessObj (wallet_id : String) : Json :=
  .obj [("success", .bool true),
        ("message", .str ("Wallet " ++ wallet_id ++ " deleted successfully"))]

/-- Python's `str.strip()` with no argument: remove leading and trailing
whitespace. -/
def pyStrip (s : String) : String :=
  String.mk (((s.data.dropWhile Char.isWhitespace).reverse.dropWhile
    Char.isWhitespace).reverse)

/-- `delete_wallet` (`voltage_payments_api.py` lines 353-394), response
handling only: `raise_for_status`; then `if not response.text.strip():`
returns the synthesized success object; otherwise `response.json()` with
the decode error wrapped in a `ValueError`. -/
def delete_wallet (wallet_id : String) (r : HttpResponse) : Except PyError Json :=
  match raise_for_status r with
  | some e => .error e
  | none =>
    if pyStrip r.text = "" then .ok (deleteSuccessObj wallet_id)
    else
      match r.json with
      | some j => .ok j
      | none => .error (.valueError invalidJsonMsg)

/-- C8: on a successful response, `delete_wallet` with an empty or
whitespace-only body returns the synthesized
`{success: true, message: ...}` object instead of a parse error, and with a
non-empty body returns the parsed JSON. -/
theorem C8_delete_wallet_empty_body (wallet_id : String) (r : HttpResponse)
    (h2 : 200 ≤ r.status) (h3 : r.status < 300) :
    (pyStrip r.text = "" → delete_wallet wallet_id r = .ok (deleteSuccessObj wallet_id))
    ∧ (∀ j : Json, pyStrip r.text ≠ "" → r.json = some j →
        delete_wallet wallet_id r = .ok j) := by
  have he : raise_for_status r = none := by
    unfold raise_for_status
    rw [if_neg]
    omega
  constructor
  · intro ht
    unfold delete_wallet
    rw [he, if_pos ht]
  · intro j ht hj
    unfold delete_wallet
    rw [he, if_neg ht, hj]

/-- Witness for C8_delete_wallet_empty_body: a 204 with a whitespace-only
body synthesizes the success object for wallet "w-9"; a 200 with body
"null" returns the parsed JSON. -/
theorem C8_delete_wallet_empty_body_witness :
    delete_wallet "w-9" ⟨204, "  \n", none⟩ = .ok (deleteSuccessObj "w-9")
    ∧ delete_wallet "w-9" ⟨200, "null", some .null⟩ = .ok .null :=
  ⟨(C8_delete_wallet_empty_body "w-9" ⟨204, "  \n", none⟩
      (by decide) (by decide)).1 (by decide),
   (C8_delete_wallet_empty_body "w-9" ⟨200, "null", some .null⟩
      (by decide) (by decide)).2 .null (by decide) rfl⟩

/-- An operation object in an OpenAPI document, restricted to the fields
`extract_operation_details` reads (`operation.get(...)` accessors). -/
structure Operation where
  operationId : Option String
  parameters : List Json
  responses : List (String × Json)
  requestBody : Option Json

/-- An OpenAPI document as scanned: `spec.get('paths', {})`, each path item
being its (insertion-ordered) method/operation entries. -/
structure OpenApiSpec where
  paths : List (String × List (String × Operation))

/-- The result dict built by `extract_operation_details`
(`openapi_to_mcp.py` lines 33-40). -/
structure OperationDetails where
  path : String
  method : String
  operation : Operation
  parameters : List Json
  responses : List (String × Json)
  requestBody : Option Json

/-- The method allowlist at `openapi_to_mcp.py` line 32. -/
def httpMethods : List String := ["get", "post", "put", "delete", "patch"]

/-- Builds the returned details dict for a matching path+method entry. -/
def mkDetails (path method : String) (op : Operation) : OperationDetails :=
  ⟨path, method, op, op.parameters, op.responses, op.requestBody⟩

/-- The inner loop of `extract_operation_details`: scan one path item's
method entries in order; `return` on the first whose method is allowed and
whose `operationId` equals the requested one. -/
def findInPathItem (operation_id path : String) :
    List (String × Operation) → Option OperationDetails
  | [] => none
  | (method, op) :: rest =>
    if method ∈ httpMethods ∧ op.operationId = some operation_id then
      some (mkDetails path method op)
    else findInPathItem operation_id path rest

/-- The outer loop of `extract_operation_details`: scan path items in
document order. -/
def extractFromPaths (operation_id : String) :
    List (String × List (String × Operation)) → Option OperationDetails
  | [] => none
  | (path, item) :: rest =>
    match findInPathItem operation_id path item with
    | some d => some d
    | none => extractFromPaths operation_id rest

/-- `extract_operation_details` (`openapi_to_mcp.py` lines 18-41). -/
def extract_operation_details (spec : OpenApiSpec) (operation_id : String) :
    Option OperationDetails :=
  extractFromPaths operation_id spec.paths

/-- All path+method entries of the document, flattened in document order
(outer: paths in order; inner: each path item's entries in order). -/
def scanEntries (spec : OpenApiSpec) : List (String × String × Operation) :=
  spec.paths.flatMap (fun pi => pi.2.map (fun mo => (pi.1, mo.1, mo.2)))

/-- The match condition of the lookup: the method is in the allowlist and
the entry's `operationId` equals the requested id exactly. -/
def matchesOp (operation_id : String) (e : String × String × Operation) : Bool :=
  decide (e.2.1 ∈ httpMethods) && (e.2.2.operationId == some operation_id)

theorem matchesOp_iff (operation_id path method : String) (op : Operation) :
    matchesOp operation_id (path, method, op) = true ↔
      method ∈ httpMethods ∧ op.operationId = some operation_id := by
  simp [matchesOp]

/-- The inner loop is the first match over the path item's entries. -/
theorem findInPathItem_eq_find (operation_id path : String)
    (item : List (String × Operation)) :
    findInPathItem operation_id path item =
      ((item.map (fun mo => (path, mo.1, mo.2))).find?
        (matchesOp operation_id)).map (fun e => mkDetails e.1 e.2.1 e.2.2) := by
  induction item with
  | nil => rfl
  | cons mo rest ih =>
    obtain ⟨method, op⟩ := mo
    by_cases h : method ∈ httpMethods ∧ op.operationId = some operation_id
    · rw [List.map_cons, List.find?_cons_of_pos _ ((matchesOp_iff _ _ _ _).mpr h)]
      unfold findInPathItem
      rw [if_pos h]
      rfl
    · rw [List.map_cons, List.find?_cons_of_neg]
      · unfold findInPathItem
        rw [if_neg h]
        exact ih
      · intro hc
        exact h ((matchesOp_iff _ _ _ _).mp hc)

/-- C9: `extract_operation_details` returns the first entry, in document
order over path+method entries restricted to the five HTTP methods, whose
`operationId` matches exactly — with that entry's path, method, and
parameter list — and returns `none` when no entry matches. -/
theorem C9_extract_operation_details (spec : OpenApiSpec) (operation_id : String) :
    extract_operation_details spec operation_id =
      ((scanEntries spec).find? (matchesOp operation_id)).map
        (fun e => mkDetails e.1 e.2.1 e.2.2)
    ∧ ((∀ e ∈ scanEntries spec, matchesOp operation_id e = false) →
        extract_operation_details spec operation_id = none) := by
  have main : ∀ ps : List (String × List (String × Operation)),
      extractFromPaths operation_id ps =
        ((ps.flatMap (fun pi => pi.2.map (fun mo => (pi.1, mo.1, mo.2)))).find?
          (matchesOp operation_id)).map (fun e => mkDetails e.1 e.2.1 e.2.2) := by
    intro ps
    induction ps with
    | nil => rfl
    | cons p rest ih =>
      obtain ⟨path, item⟩ := p
      rw [List.flatMap_cons, List.find?_append]
      unfold extractFromPaths
      rw [findInPathItem_eq_find operation_id path item]
      cases hfind : (item.map (fun mo => (path, mo.1, mo.2))).find?
          (matchesOp operation_id) with
      | some d => rfl
      | none =>
        simp only [Option.map_none', Option.none_orElse]
        exact ih
  constructor
  · exact main spec.paths
  · intro hall
    rw [extract_operation_details, main spec.paths]
    have : (scanEntries spec).find? (matchesOp operation_id) = none := by
      rw [List.find?_eq_none]
      intro x hx
      rw [hall x hx]
      simp
    rw [show (spec.paths.flatMap fun pi => pi.2.map fun mo => (pi.1, mo.1, mo.2)) =
        scanEntries spec from rfl, this]
    rfl

/-- The two-path OpenAPI document used by the C9 witness. -/
def c9Spec : OpenApiSpec :=
  ⟨[("/wallets", [("get", ⟨some "listWallets", [.str "p1"], [], none⟩),
                  ("post", ⟨some "createWallet", [], [], none⟩)]),
    ("/payments", [("get", ⟨some "listPayments", [], [], none⟩)])]⟩

/-- Witness for C9_extract_operation_details: on a concrete two-path
document, a known id returns the first matching entry with its path, method
and parameters, and an unknown id returns `none`. -/
theorem C9_extract_operation_details_witness :
    extract_operation_details c9Spec "createWallet" =
      some ⟨"/wallets", "post", ⟨some "createWallet", [], [], none⟩, [], [], none⟩
    ∧ extract_operation_details c9Spec "missingOp" = none :=
  ⟨by rw [(C9_extract_operation_details c9Spec "createWallet").1]; rfl,
   (C9_extract_operation_details c9Spec "missingOp").2 (by decide)⟩
